import Mathlib

/-!
# Telemetry collector (`src/dpu_apps/telemetry/telemetry_collector.c`)

A shallow embedding of the DPU telemetry collector: the metrics record, the
risk scorer, the reader entry point, the collector loop body and the
init / cleanup lifecycle, followed by the properties proved about them.

Conventions of the embedding:

* `uint64_t` fields are natural numbers (a store into such a field reduces
  modulo `2 ^ 64`); the C `int` risk score is an integer (it never exceeds 90,
  so no wrap-around can occur).
* a C `double` is a value of `double` below: NaN, the two infinities, or a
  finite value given as a rational (every finite IEEE double is a dyadic
  rational); `double.gt` is the IEEE `>` comparison, false as soon as one side
  is NaN.
* a pointer that may be `NULL` is an `Option`.
* calls into the vendor SDK and into pthreads are environment choices, passed
  in as explicit outcome records; their observable effects are appended to a
  trace.
-/

namespace Telemetry

/-! ## Data model -/

/-- C `double`: NaN, minus / plus infinity or a finite value. -/
inductive double where
  | nan : double
  | neg_inf : double
  | pos_inf : double
  | fin (q : ℚ) : double
  deriving DecidableEq, Repr

/-- IEEE comparison `x > y` on doubles: unordered (false) when either side is NaN. -/
def double.gt : double → double → Bool
  | .nan, _ => false
  | _, .nan => false
  | .neg_inf, _ => false
  | .pos_inf, .pos_inf => false
  | .pos_inf, _ => true
  | .fin _, .pos_inf => false
  | .fin _, .neg_inf => true
  | .fin a, .fin b => decide (b < a)

/-- Number of values of a `uint64_t`. -/
def UINT64_MOD : Nat := 2 ^ 64

/-- The struct `network_metrics_t` (lines 20-31), fields in declaration order. -/
structure network_metrics_t where
  timestamp : Nat
  packets_per_sec : Nat
  bytes_per_sec : Nat
  active_connections : Nat
  dropped_packets : Nat
  encryption_hits : Nat
  decryption_hits : Nat
  cpu_usage : double
  memory_usage : double
  error_count : Nat
  deriving DecidableEq, Repr

/-- A `static network_metrics_t` without initialiser is zero-initialised. -/
def zero_metrics : network_metrics_t :=
  { timestamp := 0, packets_per_sec := 0, bytes_per_sec := 0, active_connections := 0,
    dropped_packets := 0, encryption_hits := 0, decryption_hits := 0,
    cpu_usage := .fin 0, memory_usage := .fin 0, error_count := 0 }

/-! ## Risk scorer (lines 194-233) -/

/-- Value of the local `risk_score` when control reaches the clamp at line 228:
initialised to 0 (line 197), then the four `if / else if` statements in order
(lines 200-225), each adding to the running value. -/
def risk_score_before_clamp (metrics : network_metrics_t) : Int :=
  let risk_score : Int := 0
  let risk_score :=
    if metrics.dropped_packets > 1000 then risk_score + 20
    else if metrics.dropped_packets > 100 then risk_score + 10
    else risk_score
  let risk_score :=
    if metrics.active_connections > 10000 then risk_score + 25
    else if metrics.active_connections > 5000 then risk_score + 15
    else risk_score
  let risk_score :=
    if metrics.error_count > 100 then risk_score + 30
    else if metrics.error_count > 50 then risk_score + 20
    else risk_score
  let risk_score :=
    if metrics.cpu_usage.gt (.fin 80) then risk_score + 15
    else if metrics.cpu_usage.gt (.fin 60) then risk_score + 10
    else risk_score
  risk_score

/-- The function `calculate_risk_score` (lines 194-233): the accumulated value,
replaced by 100 when it exceeds 100 (lines 228-230). -/
def calculate_risk_score (metrics : network_metrics_t) : Int :=
  let risk_score := risk_score_before_clamp metrics
  let risk_score := if risk_score > 100 then 100 else risk_score
  risk_score

/-! ## Global state and environment -/

/-- Result codes of `doca_error.h`, a vendor header that is not part of the
repository: the three codes the file names, and any other code a vendor call may
return. -/
inductive doca_error_t where
  | DOCA_SUCCESS : doca_error_t
  | DOCA_ERROR_UNKNOWN : doca_error_t
  | DOCA_ERROR_INVALID_VALUE : doca_error_t
  | DOCA_ERROR_OTHER (code : Nat) : doca_error_t
  deriving DecidableEq, Repr

/-- Observable calls into the vendor SDK and pthreads that create or release a
resource. Telemetry contexts and threads are identified by the number handed out
when they were created; `telemetry_destroy` and `thread_join` record the value of
the global they were called with (`none`: `NULL`, resp. a `pthread_t` that no
`pthread_create` ever filled in). -/
inductive event where
  | config_create : event
  | config_destroy : event
  | telemetry_create (ctx : Nat) : event
  | telemetry_destroy (ctx : Option Nat) : event
  | thread_create (tid : Nat) : event
  | thread_join (tid : Option Nat) : event
  deriving DecidableEq, Repr

/-- The file-scope variables (lines 34-37), followed by the bookkeeping of the
environment: the next fresh context / thread identity and the calls made so far. -/
structure state where
  telemetry_ctx : Option Nat
  collector_thread : Option Nat
  collector_running : Int
  current_metrics : network_metrics_t
  next_ctx : Nat
  next_thread : Nat
  trace : List event
  deriving DecidableEq, Repr

/-- State at program start: the initialisers of lines 34-37 (statics without an
initialiser are zero), nothing created yet. -/
def initial_state : state :=
  { telemetry_ctx := none, collector_thread := none, collector_running := 0,
    current_metrics := zero_metrics, next_ctx := 0, next_thread := 0, trace := [] }

/-- Record one call in the trace. -/
def state.emit (s : state) (e : event) : state :=
  { s with trace := s.trace ++ [e] }

/-- What the vendor getters `doca_telemetry_get_*` return for one
`doca_telemetry_data_t` (lines 49-61). -/
structure doca_telemetry_data_t where
  packets_per_sec : Nat
  bytes_per_sec : Nat
  active_connections : Nat
  dropped_packets : Nat
  encryption_hits : Nat
  decryption_hits : Nat
  cpu_usage : double
  memory_usage : double
  error_count : Nat
  deriving DecidableEq, Repr

/-- Outcome of one `doca_telemetry_collect` call (line 77): the data and the
`time(NULL)` reading with which it invoked the callback, if it did, and the
code it returned. -/
structure collect_outcome where
  delivered : Option (doca_telemetry_data_t × Int)
  result : doca_error_t
  deriving DecidableEq, Repr

/-- Outcomes of the calls made by `telemetry_collector_init`, in call order;
`pthread_create` returns 0 on success. -/
structure init_outcome where
  log_create : doca_error_t
  config_create : doca_error_t
  config_set_device_id : doca_error_t
  config_set_interval : doca_error_t
  telemetry_create : doca_error_t
  pthread_create : Int
  deriving DecidableEq, Repr

/-! ## Callback and collector loop (lines 40-87) -/

/-- The `k`-th assignment statement of `telemetry_callback` (lines 46-61),
numbered from 0, applied to the record `user_data` points to. `now` is the
value of `time(NULL)`; a store into a `uint64_t` field reduces modulo `2 ^ 64`. -/
def callback_stmt (data : doca_telemetry_data_t) (now : Int) :
    Nat → network_metrics_t → network_metrics_t
  | 0, metrics => { metrics with timestamp := (now % (UINT64_MOD : Int)).toNat }
  | 1, metrics => { metrics with packets_per_sec := data.packets_per_sec % UINT64_MOD }
  | 2, metrics => { metrics with bytes_per_sec := data.bytes_per_sec % UINT64_MOD }
  | 3, metrics => { metrics with active_connections := data.active_connections % UINT64_MOD }
  | 4, metrics => { metrics with dropped_packets := data.dropped_packets % UINT64_MOD }
  | 5, metrics => { metrics with encryption_hits := data.encryption_hits % UINT64_MOD }
  | 6, metrics => { metrics with decryption_hits := data.decryption_hits % UINT64_MOD }
  | 7, metrics => { metrics with cpu_usage := data.cpu_usage }
  | 8, metrics => { metrics with memory_usage := data.memory_usage }
  | 9, metrics => { metrics with error_count := data.error_count % UINT64_MOD }
  | _, metrics => metrics

/-- Number of assignment statements in `telemetry_callback`. -/
def CALLBACK_STMTS : Nat := 10

/-- The function `telemetry_callback` (lines 40-67): its ten assignments in
order (the log call has no effect on the state). -/
def telemetry_callback (data : doca_telemetry_data_t) (now : Int)
    (metrics : network_metrics_t) : network_metrics_t :=
  (List.range CALLBACK_STMTS).foldl (fun m k => callback_stmt data now k m) metrics

/-- Body of the `while` loop of `collector_thread_func` (lines 77-83):
`doca_telemetry_collect` runs `telemetry_callback` on `&current_metrics` when it
delivers data; a result other than `DOCA_SUCCESS` is only logged; then the
thread sleeps. -/
def collector_loop_body (o : collect_outcome) (s : state) : state :=
  let s :=
    match o.delivered with
    | some (data, now) =>
      { s with current_metrics := telemetry_callback data now s.current_metrics }
    | none => s
  let result := o.result
  let s := if result ≠ .DOCA_SUCCESS then s else s
  s

/-- Where control goes after one evaluation of the loop test. -/
inductive loop_control where
  | next_iteration : loop_control
  | returned : loop_control
  deriving DecidableEq, Repr

/-- One evaluation of `while (collector_running)` (line 75): run the body and
come back to the test, or leave the loop and return. -/
def collector_loop_step (o : collect_outcome) (s : state) : loop_control × state :=
  if s.collector_running ≠ 0 then (.next_iteration, collector_loop_body o s)
  else (.returned, s)

/-- The function `collector_thread_func` (lines 70-87) against a finite script
of collect outcomes: `some s` when the loop leaves in state `s`, `none` when it
is still looping after the script is used up. -/
def collector_thread_func : List collect_outcome → state → Option state
  | [], s => if s.collector_running ≠ 0 then none else some s
  | o :: os, s =>
    match collector_loop_step o s with
    | (.next_iteration, s') => collector_thread_func os s'
    | (.returned, s') => some s'

/-! ## Lifecycle and reader (lines 94-187) -/

/-- The function `telemetry_collector_init` (lines 94-150). A vendor call or a
`pthread_create` that fails leaves its output argument untouched;
`doca_telemetry_create` and `pthread_create` store a fresh identity on success. -/
def telemetry_collector_init (_device_id : Option String) (o : init_outcome) (s : state) :
    doca_error_t × state :=
  let result := o.log_create
  if result ≠ .DOCA_SUCCESS then (result, s) else
  let result := o.config_create
  if result ≠ .DOCA_SUCCESS then (result, s) else
  let s := s.emit .config_create
  let result := o.config_set_device_id
  if result ≠ .DOCA_SUCCESS then (result, s.emit .config_destroy) else
  let result := o.config_set_interval
  if result ≠ .DOCA_SUCCESS then (result, s.emit .config_destroy) else
  let result := o.telemetry_create
  if result ≠ .DOCA_SUCCESS then (result, s.emit .config_destroy) else
  let s := { s.emit (.telemetry_create s.next_ctx) with
             telemetry_ctx := some s.next_ctx, next_ctx := s.next_ctx + 1 }
  let s := { s with collector_running := 1 }
  if o.pthread_create ≠ 0 then
    let s := s.emit (.telemetry_destroy s.telemetry_ctx)
    let s := s.emit .config_destroy
    (.DOCA_ERROR_UNKNOWN, s)
  else
  let s := { s.emit (.thread_create s.next_thread) with
             collector_thread := some s.next_thread, next_thread := s.next_thread + 1 }
  let s := s.emit .config_destroy
  (.DOCA_SUCCESS, s)

/-- The function `telemetry_get_current_metrics` (lines 157-168). The argument
is the record `metrics` points to (`none` for `NULL`); the second component of
the result is that record after the call. -/
def telemetry_get_current_metrics (metrics : Option network_metrics_t) (s : state) :
    doca_error_t × Option network_metrics_t × state :=
  match metrics with
  | none => (.DOCA_ERROR_INVALID_VALUE, none, s)
  | some _ => (.DOCA_SUCCESS, some s.current_metrics, s)

/-- The function `telemetry_collector_cleanup` (lines 173-187). -/
def telemetry_collector_cleanup (s : state) : state :=
  let s :=
    if s.collector_running ≠ 0 then
      let s := { s with collector_running := 0 }
      s.emit (.thread_join s.collector_thread)
    else s
  let s :=
    if s.telemetry_ctx ≠ none then
      let s := s.emit (.telemetry_destroy s.telemetry_ctx)
      { s with telemetry_ctx := none }
    else s
  s

/-- One call made against the collector: the two lifecycle entry points, and one
evaluation of the collector thread's loop test (with its body when entered). -/
inductive action where
  | init (device_id : Option String) (o : init_outcome) : action
  | cleanup : action
  | cycle (o : collect_outcome) : action
  deriving DecidableEq, Repr

/-- Effect of one call on the state. -/
def action.apply : action → state → state
  | .init device_id o, s => (telemetry_collector_init device_id o s).2
  | .cleanup, s => telemetry_collector_cleanup s
  | .cycle o, s => (collector_loop_step o s).2

/-- Effect of a sequence of calls, first call first. -/
def run (acts : List action) (s : state) : state :=
  acts.foldl (fun s a => a.apply s) s

/-- Outcome in which every call of `telemetry_collector_init` succeeds. -/
def all_succeed : init_outcome :=
  { log_create := .DOCA_SUCCESS, config_create := .DOCA_SUCCESS,
    config_set_device_id := .DOCA_SUCCESS, config_set_interval := .DOCA_SUCCESS,
    telemetry_create := .DOCA_SUCCESS, pthread_create := 0 }

/-- The sample a callback invocation builds from `data` at time `now`. -/
def sample_of (data : doca_telemetry_data_t) (now : Int) : network_metrics_t :=
  { timestamp := (now % (UINT64_MOD : Int)).toNat,
    packets_per_sec := data.packets_per_sec % UINT64_MOD,
    bytes_per_sec := data.bytes_per_sec % UINT64_MOD,
    active_connections := data.active_connections % UINT64_MOD,
    dropped_packets := data.dropped_packets % UINT64_MOD,
    encryption_hits := data.encryption_hits % UINT64_MOD,
    decryption_hits := data.decryption_hits % UINT64_MOD,
    cpu_usage := data.cpu_usage,
    memory_usage := data.memory_usage,
    error_count := data.error_count % UINT64_MOD }

/-- The running collector before any sample was stored. -/
def running_no_sample : state :=
  { initial_state with collector_running := 1 }

/-- A collect call that fails with `DOCA_ERROR_UNKNOWN` and delivers nothing. -/
def failed_collect : collect_outcome :=
  { delivered := none, result := .DOCA_ERROR_UNKNOWN }

/-- Device identifier used in the concrete runs. -/
def DEVICE_ID : Option String := some "mlx5_0"

/-- The state after one fully successful `telemetry_collector_init` at program
start: the collector is Running. -/
def started_once : state :=
  (telemetry_collector_init DEVICE_ID all_succeed initial_state).2

/-- Whether a call is a collector cycle in which data reaches the callback. -/
def action.stores_sample : action → Bool
  | .cycle o => o.delivered.isSome
  | _ => false

/-- Resource discipline read off the calls made: every telemetry context that
was created has been destroyed exactly once, every thread that was created has
been joined exactly once, and every join was for a thread that was created. -/
def released_exactly_once (t : List event) : Prop :=
  (∀ c : Nat, event.telemetry_create c ∈ t → t.count (.telemetry_destroy (some c)) = 1)
  ∧ (∀ tid : Nat, event.thread_create tid ∈ t → t.count (.thread_join (some tid)) = 1)
  ∧ (∀ j : Option Nat, event.thread_join j ∈ t →
      ∃ tid : Nat, j = some tid ∧ event.thread_create tid ∈ t)

/-- Every `telemetry_collector_init` of the sequence, run from state `s`, is
called while the collector is Idle (`collector_running = 0` and
`telemetry_ctx = NULL`). -/
def init_only_when_idle : List action → state → Bool
  | [], _ => true
  | a :: as, s =>
    (match a with
      | .init _ _ => decide (s.collector_running = 0) && decide (s.telemetry_ctx = none)
      | _ => true)
    && init_only_when_idle as (a.apply s)

/-- Whether `telemetry_collector_init` gets as far as `pthread_create` (line
139): its five vendor calls all succeed. -/
def init_outcome.reaches_pthread_create (o : init_outcome) : Bool :=
  decide (o.log_create = .DOCA_SUCCESS) && decide (o.config_create = .DOCA_SUCCESS)
    && decide (o.config_set_device_id = .DOCA_SUCCESS)
    && decide (o.config_set_interval = .DOCA_SUCCESS)
    && decide (o.telemetry_create = .DOCA_SUCCESS)

/-- Whether no `pthread_create` fails in the call: it is not an init, or the
init does not reach `pthread_create`, or `pthread_create` returns 0. -/
def action.thread_creation_ok : action → Bool
  | .init _ o => !o.reaches_pthread_create || decide (o.pthread_create = 0)
  | _ => true

/-- Relation between the globals and the calls made so far that the lifecycle
functions maintain: identities in the trace are below the fresh counters, joins
are for created threads, the context in `telemetry_ctx` and the thread of a
running collector are the only ones not yet released, all others have been
released once. -/
structure lifecycle_inv (s : state) : Prop where
  ctx_lt : ∀ c : Nat, event.telemetry_create c ∈ s.trace → c < s.next_ctx
  thread_lt : ∀ tid : Nat, event.thread_create tid ∈ s.trace → tid < s.next_thread
  destroy_lt : ∀ c : Nat, event.telemetry_destroy (some c) ∈ s.trace → c < s.next_ctx
  join_created : ∀ j : Option Nat, event.thread_join j ∈ s.trace →
    ∃ tid : Nat, j = some tid ∧ event.thread_create tid ∈ s.trace
  destroy_count : ∀ c : Nat, event.telemetry_create c ∈ s.trace →
    s.trace.count (.telemetry_destroy (some c)) = if s.telemetry_ctx = some c then 0 else 1
  join_count : ∀ tid : Nat, event.thread_create tid ∈ s.trace →
    s.trace.count (.thread_join (some tid))
      = if s.collector_running ≠ 0 ∧ s.collector_thread = some tid then 0 else 1
  running_thread : s.collector_running ≠ 0 →
    ∃ tid : Nat, s.collector_thread = some tid ∧ event.thread_create tid ∈ s.trace
  ctx_created : ∀ c : Nat, s.telemetry_ctx = some c → event.telemetry_create c ∈ s.trace

/-- Outcome in which the vendor calls succeed and `pthread_create` fails
(with `EAGAIN`). -/
def thread_creation_fails : init_outcome :=
  { all_succeed with pthread_create := 11 }

/-- Outcome in which `doca_telemetry_config_set_interval` fails (so that
`pthread_create` is not reached, whatever it would have returned). -/
def set_interval_fails : init_outcome :=
  { all_succeed with config_set_interval := .DOCA_ERROR_OTHER 7, pthread_create := 11 }

/-- A start, a failed cycle, a stop, a start that fails early and a restart. -/
def restart_calls : List action :=
  [.init DEVICE_ID all_succeed, .cycle failed_collect, .cleanup,
   .init DEVICE_ID set_interval_fails, .init DEVICE_ID all_succeed]

/-! ## Reader interleaved with the collector thread

Neither `telemetry_callback` nor `telemetry_get_current_metrics` takes a lock,
so a reader on another thread can run between any two assignment statements of
a callback invocation. The interleaving below is the coarsest one the source
allows: each assignment statement of the callback is one step and the reader's
`memcpy` is one step. -/

/-- Collector thread and readers in flight: the globals, the number of
assignment statements the callback invocation in progress has executed (0 when
none is in progress), the data and clock reading of the invocations still to
run (the first one being the one in progress), and for every read made so far
the value of `pc` at the time together with the sample handed out. -/
structure interleaving where
  s : state
  pc : Nat
  pending : List (doca_telemetry_data_t × Int)
  reads : List (Nat × network_metrics_t)
  deriving DecidableEq, Repr

/-- Who moves next. -/
inductive sched_step where
  | writer_stmt : sched_step
  | reader_get : sched_step
  deriving DecidableEq, Repr

/-- One step: the collector thread executes the next assignment statement of
the callback on `current_metrics`, or a reader calls
`telemetry_get_current_metrics`. -/
def interleave_step : sched_step → interleaving → interleaving
  | .writer_stmt, c =>
    match c.pending with
    | [] => c
    | (data, now) :: rest =>
      let s := { c.s with
                 current_metrics := callback_stmt data now c.pc c.s.current_metrics }
      if c.pc + 1 < CALLBACK_STMTS then { c with s := s, pc := c.pc + 1 }
      else { c with s := s, pc := 0, pending := rest }
  | .reader_get, c =>
    match telemetry_get_current_metrics (some zero_metrics) c.s with
    | (_, some m, s) => { c with s := s, reads := c.reads ++ [(c.pc, m)] }
    | (_, none, s) => { c with s := s }

/-- A whole schedule, first step first. -/
def interleave (sched : List sched_step) (c : interleaving) : interleaving :=
  sched.foldl (fun c x => interleave_step x c) c

/-- The running collector right after a successful init, about to go through
the given callback invocations. -/
def start_interleaving (cycles : List (doca_telemetry_data_t × Int)) : interleaving :=
  { s := started_once, pc := 0, pending := cycles, reads := [] }

/-- A sample all of whose fields come from the initial value, or all from one
and the same callback invocation among `cycles`. -/
def consistent_read (cycles : List (doca_telemetry_data_t × Int))
    (r : network_metrics_t) : Prop :=
  r = zero_metrics ∨ ∃ c ∈ cycles, r = sample_of c.1 c.2

/-- Vendor data with every counter and percentage equal to 1. -/
def ones_data : doca_telemetry_data_t :=
  { packets_per_sec := 1, bytes_per_sec := 1, active_connections := 1, dropped_packets := 1,
    encryption_hits := 1, decryption_hits := 1, cpu_usage := .fin 1, memory_usage := .fin 1,
    error_count := 1 }

/-- Ten writer steps, one full callback invocation, then one read. -/
def read_after_cycle : List sched_step :=
  List.replicate 10 .writer_stmt ++ [.reader_get]

/-- What every reachable interleaving satisfies: reads made between callback
invocations were consistent; the pending invocations are a tail of `cycles`;
`pc` counts the statements done of the invocation in progress, which have been
applied in order to some earlier record; and between invocations the stored
sample is consistent. -/
structure interleaving_inv (cycles : List (doca_telemetry_data_t × Int))
    (c : interleaving) : Prop where
  reads_ok : ∀ kr ∈ c.reads, kr.1 = 0 → consistent_read cycles kr.2
  tail : ∃ done : List (doca_telemetry_data_t × Int), cycles = done ++ c.pending
  pc_lt : c.pc < CALLBACK_STMTS
  stmts_applied : ∀ data now rest, c.pending = (data, now) :: rest →
    ∃ prev : network_metrics_t,
      c.s.current_metrics = (List.range c.pc).foldl (fun m k => callback_stmt data now k m) prev
  idle_ok : c.pc = 0 → consistent_read cycles c.s.current_metrics

/-! ## Theorems -/

/-- Comparison of two finite doubles is comparison of their values. -/
theorem double_gt_fin (a b : ℚ) : (double.fin a).gt (.fin b) = decide (b < a) := rfl

/-- One `if / else if` statement of the scorer adds its tier value to the
running score. -/
theorem tier_add (p q : Prop) [Decidable p] [Decidable q] (r x y : Int) :
    (if p then r + x else if q then r + y else r) = r + (if p then x else if q then y else 0) := by
  split_ifs <;> simp

/-- The value reaching the clamp is the sum of the four tier values. -/
theorem risk_score_before_clamp_eq (m : network_metrics_t) :
    risk_score_before_clamp m =
      (if m.dropped_packets > 1000 then 20 else if m.dropped_packets > 100 then 10 else 0)
        + (if m.active_connections > 10000 then 25
            else if m.active_connections > 5000 then 15 else 0)
        + (if m.error_count > 100 then 30 else if m.error_count > 50 then 20 else 0)
        + (if m.cpu_usage.gt (.fin 80) = true then 15
            else if m.cpu_usage.gt (.fin 60) = true then 10 else 0) := by
  simp only [risk_score_before_clamp, tier_add, zero_add]

/-- A tier value is 0, the lower or the upper value, and is the upper value
exactly when the upper threshold is exceeded. -/
theorem tier_cases (p q : Prop) [Decidable p] [Decidable q] (x y : Int) (hy : y ≠ x)
    (hx : x ≠ 0) :
    ((if p then x else if q then y else 0) = 0 ∨ (if p then x else if q then y else 0) = y
      ∨ (if p then x else if q then y else 0) = x)
    ∧ ((if p then x else if q then y else 0) = x ↔ p) := by
  split_ifs with h1 h2
  · simp [h1]
  · simp [h1, hy]
  · simp [h1, hx.symm]

/-- The value reaching the clamp is at most 90. -/
theorem risk_score_before_clamp_le (m : network_metrics_t) :
    0 ≤ risk_score_before_clamp m ∧ risk_score_before_clamp m ≤ 90 := by
  rw [risk_score_before_clamp_eq]
  have hd := (tier_cases (m.dropped_packets > 1000) (m.dropped_packets > 100) 20 10
    (by decide) (by decide)).1
  have ha := (tier_cases (m.active_connections > 10000) (m.active_connections > 5000) 25 15
    (by decide) (by decide)).1
  have he := (tier_cases (m.error_count > 100) (m.error_count > 50) 30 20
    (by decide) (by decide)).1
  have hc := (tier_cases (m.cpu_usage.gt (.fin 80) = true) (m.cpu_usage.gt (.fin 60) = true)
    15 10 (by decide) (by decide)).1
  omega

/-- The clamp leaves the accumulated value unchanged. -/
theorem calculate_risk_score_eq_sum (m : network_metrics_t) :
    calculate_risk_score m = risk_score_before_clamp m := by
  have h := (risk_score_before_clamp_le m).2
  simp only [calculate_risk_score]
  rw [if_neg (by omega)]

/-- C1: for every sample `calculate_risk_score` returns `min(100, d + a + e + c)`
with `d`, `a`, `e`, `c` the single highest tier exceeded (strictly) by
`dropped_packets`, `active_connections`, `error_count` and `cpu_usage`; a sample
with the four values (150, 100, 10, 50.0) scores 10, one with
(2000, 12000, 200, 90.0) scores 90, and the all-zero sample scores 0. -/
theorem calculate_risk_score_formula :
    (∀ m : network_metrics_t,
      calculate_risk_score m =
        min 100
          ((if m.dropped_packets > 1000 then 20 else if m.dropped_packets > 100 then 10 else 0)
            + (if m.active_connections > 10000 then 25
                else if m.active_connections > 5000 then 15 else 0)
            + (if m.error_count > 100 then 30 else if m.error_count > 50 then 20 else 0)
            + (if m.cpu_usage.gt (.fin 80) = true then 15
                else if m.cpu_usage.gt (.fin 60) = true then 10 else 0)))
    ∧ (∀ m : network_metrics_t,
        calculate_risk_score
          { m with dropped_packets := 150, active_connections := 100, error_count := 10,
                   cpu_usage := .fin 50 } = 10)
    ∧ (∀ m : network_metrics_t,
        calculate_risk_score
          { m with dropped_packets := 2000, active_connections := 12000, error_count := 200,
                   cpu_usage := .fin 90 } = 90)
    ∧ calculate_risk_score zero_metrics = 0 := by
  refine ⟨?_, ?_, ?_, ?_⟩
  · intro m
    have h := (risk_score_before_clamp_le m).2
    rw [calculate_risk_score_eq_sum, ← risk_score_before_clamp_eq]
    omega
  · intro m
    rw [calculate_risk_score_eq_sum, risk_score_before_clamp_eq]
    norm_num [double_gt_fin]
  · intro m
    rw [calculate_risk_score_eq_sum, risk_score_before_clamp_eq]
    norm_num [double_gt_fin]
  · rw [calculate_risk_score_eq_sum, risk_score_before_clamp_eq]
    norm_num [double_gt_fin, zero_metrics]

/-- C2: for every sample, whatever its counters and whatever `cpu_usage` and
`memory_usage` (NaN, infinities and values outside [0, 100] included), the
returned score lies between 0 and 100. -/
theorem calculate_risk_score_bounds (m : network_metrics_t) :
    0 ≤ calculate_risk_score m ∧ calculate_risk_score m ≤ 100 := by
  have h := risk_score_before_clamp_le m
  rw [calculate_risk_score_eq_sum]
  omega

/-- C10: the accumulated sum never exceeds 90, so the clamp branch is never
taken and the result is the unclamped sum; the result is a sum of one value from
each of {0,10,20}, {0,15,25}, {0,20,30}, {0,10,15}; 100 is never returned; and
90 is returned exactly when all four upper thresholds are exceeded. -/
theorem calculate_risk_score_at_most_90 (m : network_metrics_t) :
    risk_score_before_clamp m ≤ 90
    ∧ ¬ (risk_score_before_clamp m > 100)
    ∧ calculate_risk_score m = risk_score_before_clamp m
    ∧ (∃ d ∈ ([0, 10, 20] : List Int), ∃ a ∈ ([0, 15, 25] : List Int),
        ∃ e ∈ ([0, 20, 30] : List Int), ∃ c ∈ ([0, 10, 15] : List Int),
          calculate_risk_score m = d + a + e + c)
    ∧ calculate_risk_score m ≠ 100
    ∧ (calculate_risk_score m = 90 ↔
        (m.dropped_packets > 1000 ∧ m.active_connections > 10000 ∧ m.error_count > 100
          ∧ m.cpu_usage.gt (.fin 80) = true)) := by
  have hle := (risk_score_before_clamp_le m).2
  have heq := calculate_risk_score_eq_sum m
  have hsum := risk_score_before_clamp_eq m
  obtain ⟨hd, hd2⟩ := tier_cases (m.dropped_packets > 1000) (m.dropped_packets > 100) 20 10
    (by decide) (by decide)
  obtain ⟨ha, ha2⟩ := tier_cases (m.active_connections > 10000) (m.active_connections > 5000)
    25 15 (by decide) (by decide)
  obtain ⟨he, he2⟩ := tier_cases (m.error_count > 100) (m.error_count > 50) 30 20
    (by decide) (by decide)
  obtain ⟨hc, hc2⟩ := tier_cases (m.cpu_usage.gt (.fin 80) = true)
    (m.cpu_usage.gt (.fin 60) = true) 15 10 (by decide) (by decide)
  refine ⟨hle, by omega, heq, ?_, by omega, ?_⟩
  · refine ⟨_, ?_, _, ?_, _, ?_, _, ?_, heq.trans hsum⟩
    · simp only [List.mem_cons, List.mem_singleton]; omega
    · simp only [List.mem_cons, List.mem_singleton]; omega
    · simp only [List.mem_cons, List.mem_singleton]; omega
    · simp only [List.mem_cons, List.mem_singleton]; omega
  · rw [heq, hsum]
    constructor
    · intro h
      exact ⟨hd2.1 (by omega), ha2.1 (by omega), he2.1 (by omega), hc2.1 (by omega)⟩
    · rintro ⟨h1, h2, h3, h4⟩
      have e1 := hd2.2 h1
      have e2 := ha2.2 h2
      have e3 := he2.2 h3
      have e4 := hc2.2 h4
      omega

/-- A callback invocation overwrites all ten fields, whatever the record held. -/
theorem telemetry_callback_eq (data : doca_telemetry_data_t) (now : Int)
    (m : network_metrics_t) : telemetry_callback data now m = sample_of data now := by
  simp [telemetry_callback, CALLBACK_STMTS, List.range, List.range.loop, callback_stmt, sample_of]

/-- C4: `telemetry_collector_cleanup` takes every state to Idle
(`collector_running = 0`, `telemetry_ctx = NULL`); a second call changes nothing,
in particular it adds no `pthread_join` and no `doca_telemetry_destroy` to the
calls made; and in the initial, never-started state it leaves everything as it
is, again without join or destroy. -/
theorem telemetry_collector_cleanup_idempotent :
    (∀ s : state,
      (telemetry_collector_cleanup s).collector_running = 0
      ∧ (telemetry_collector_cleanup s).telemetry_ctx = none
      ∧ telemetry_collector_cleanup (telemetry_collector_cleanup s)
          = telemetry_collector_cleanup s
      ∧ (telemetry_collector_cleanup (telemetry_collector_cleanup s)).trace
          = (telemetry_collector_cleanup s).trace)
    ∧ telemetry_collector_cleanup initial_state = initial_state
    ∧ (telemetry_collector_cleanup initial_state).collector_running = 0
    ∧ (telemetry_collector_cleanup initial_state).telemetry_ctx = none
    ∧ (telemetry_collector_cleanup initial_state).trace = [] := by
  have hidle : ∀ s : state, s.collector_running = 0 → s.telemetry_ctx = none →
      telemetry_collector_cleanup s = s := by
    intro s h1 h2
    simp [telemetry_collector_cleanup, h1, h2]
  have hrun : ∀ s : state, (telemetry_collector_cleanup s).collector_running = 0 := by
    intro s
    by_cases h1 : s.collector_running = 0 <;> by_cases h2 : s.telemetry_ctx = none <;>
      simp [telemetry_collector_cleanup, state.emit, h1, h2]
  have hctx : ∀ s : state, (telemetry_collector_cleanup s).telemetry_ctx = none := by
    intro s
    by_cases h1 : s.collector_running = 0 <;> by_cases h2 : s.telemetry_ctx = none <;>
      simp [telemetry_collector_cleanup, state.emit, h1, h2]
  refine ⟨fun s => ⟨hrun s, hctx s, hidle _ (hrun s) (hctx s), ?_⟩, ?_, ?_, ?_, ?_⟩
  · rw [hidle _ (hrun s) (hctx s)]
  · exact hidle _ rfl rfl
  · exact hrun _
  · exact hctx _
  · rw [hidle _ rfl rfl]; rfl

/-- C6: `telemetry_get_current_metrics` returns `DOCA_ERROR_INVALID_VALUE` exactly
when its argument is `NULL`, and then writes nothing; for a non-`NULL`
destination it returns `DOCA_SUCCESS`, the destination afterwards equals the
stored sample (all ten fields), and the stored sample, `collector_running`,
`telemetry_ctx` (indeed the whole state) are unchanged. -/
theorem telemetry_get_current_metrics_spec (s : state) :
    (∀ metrics : Option network_metrics_t,
      (telemetry_get_current_metrics metrics s).1 = .DOCA_ERROR_INVALID_VALUE ↔ metrics = none)
    ∧ telemetry_get_current_metrics none s = (.DOCA_ERROR_INVALID_VALUE, none, s)
    ∧ (∀ dst : network_metrics_t,
        (telemetry_get_current_metrics (some dst) s).1 = .DOCA_SUCCESS
        ∧ (telemetry_get_current_metrics (some dst) s).2.1 = some s.current_metrics
        ∧ (telemetry_get_current_metrics (some dst) s).2.2 = s
        ∧ (telemetry_get_current_metrics (some dst) s).2.2.current_metrics = s.current_metrics
        ∧ (telemetry_get_current_metrics (some dst) s).2.2.collector_running
            = s.collector_running
        ∧ (telemetry_get_current_metrics (some dst) s).2.2.telemetry_ctx = s.telemetry_ctx) := by
  refine ⟨?_, rfl, fun dst => ⟨rfl, rfl, rfl, rfl, rfl, rfl⟩⟩
  intro metrics
  cases metrics <;> simp [telemetry_get_current_metrics]

/-- C7: with `collector_running = 1`, a loop iteration whose
`doca_telemetry_collect` returns a code other than `DOCA_SUCCESS` and delivers
nothing to the callback leaves the stored sample as it was, leaves
`collector_running = 1`, and goes on to the next evaluation of the loop test
instead of returning; run against any further script, the thread function
continues from that state. -/
theorem failed_cycle_keeps_sample_and_loops (s : state) (o : collect_outcome)
    (hrun : s.collector_running = 1) (hres : o.result ≠ .DOCA_SUCCESS)
    (hnone : o.delivered = none) :
    (collector_loop_step o s).1 = .next_iteration
    ∧ (collector_loop_step o s).2.current_metrics = s.current_metrics
    ∧ (collector_loop_step o s).2.collector_running = 1
    ∧ (∀ os : List collect_outcome,
        collector_thread_func (o :: os) s
          = collector_thread_func os (collector_loop_step o s).2)
    ∧ collector_thread_func [o] s = none := by
  have hstep : collector_loop_step o s = (.next_iteration, s) := by
    simp [collector_loop_step, collector_loop_body, hrun, hnone, hres]
  refine ⟨by rw [hstep], by rw [hstep], by rw [hstep]; exact hrun, ?_, ?_⟩
  · intro os
    simp [collector_thread_func, hstep]
  · simp [collector_thread_func, hstep, hrun]

/-- C7 at a concrete input: the running collector with the zero sample, and a
collect call that fails with `DOCA_ERROR_UNKNOWN` without delivering data. -/
theorem failed_cycle_keeps_sample_and_loops_witness :
    running_no_sample.collector_running = 1
    ∧ failed_collect.result ≠ .DOCA_SUCCESS
    ∧ failed_collect.delivered = none
    ∧ (collector_loop_step failed_collect running_no_sample).1 = .next_iteration
    ∧ (collector_loop_step failed_collect running_no_sample).2.current_metrics
        = running_no_sample.current_metrics
    ∧ (collector_loop_step failed_collect running_no_sample).2.collector_running = 1
    ∧ (∀ os : List collect_outcome,
        collector_thread_func (failed_collect :: os) running_no_sample
          = collector_thread_func os (collector_loop_step failed_collect running_no_sample).2)
    ∧ collector_thread_func [failed_collect] running_no_sample = none :=
  ⟨rfl, by decide, rfl,
    failed_cycle_keeps_sample_and_loops running_no_sample failed_collect rfl (by decide) rfl⟩

/-- The result code of `telemetry_collector_init` is `DOCA_SUCCESS` exactly when
all six calls succeed; the state it is called in plays no part. -/
theorem telemetry_collector_init_success_iff (device_id : Option String) (o : init_outcome)
    (s : state) :
    (telemetry_collector_init device_id o s).1 = .DOCA_SUCCESS ↔
      (o.log_create = .DOCA_SUCCESS ∧ o.config_create = .DOCA_SUCCESS
        ∧ o.config_set_device_id = .DOCA_SUCCESS ∧ o.config_set_interval = .DOCA_SUCCESS
        ∧ o.telemetry_create = .DOCA_SUCCESS ∧ o.pthread_create = 0) := by
  simp only [telemetry_collector_init]
  split_ifs <;> simp_all

/-- State after a `telemetry_collector_init` in which all six calls succeed. -/
theorem telemetry_collector_init_success_state (device_id : Option String) (o : init_outcome)
    (s : state)
    (h : o.log_create = .DOCA_SUCCESS ∧ o.config_create = .DOCA_SUCCESS
        ∧ o.config_set_device_id = .DOCA_SUCCESS ∧ o.config_set_interval = .DOCA_SUCCESS
        ∧ o.telemetry_create = .DOCA_SUCCESS ∧ o.pthread_create = 0) :
    (telemetry_collector_init device_id o s).2 =
      { s with
        telemetry_ctx := some s.next_ctx, collector_thread := some s.next_thread,
        collector_running := 1, next_ctx := s.next_ctx + 1, next_thread := s.next_thread + 1,
        trace := s.trace ++ [.config_create, .telemetry_create s.next_ctx,
                             .thread_create s.next_thread, .config_destroy] } := by
  obtain ⟨h1, h2, h3, h4, h5, h6⟩ := h
  simp [telemetry_collector_init, state.emit, h1, h2, h3, h4, h5, h6]

/-- C3 (as stated, refuted): after a successful `telemetry_collector_init` the
collector is Running; a second `telemetry_collector_init`, with no cleanup in
between, returns `DOCA_SUCCESS` again and has created a second telemetry context
and a second collector thread. -/
theorem second_init_while_running_succeeds :
    (telemetry_collector_init DEVICE_ID all_succeed initial_state).1 = .DOCA_SUCCESS
    ∧ started_once.collector_running = 1
    ∧ (telemetry_collector_init DEVICE_ID all_succeed started_once).1 = .DOCA_SUCCESS
    ∧ (telemetry_collector_init DEVICE_ID all_succeed started_once).2.trace =
        [.config_create, .telemetry_create 0, .thread_create 0, .config_destroy,
         .config_create, .telemetry_create 1, .thread_create 1, .config_destroy] := by
  refine ⟨?_, ?_, ?_, ?_⟩ <;>
    simp [started_once, telemetry_collector_init, all_succeed, state.emit, initial_state]

/-- C3 (amended): `telemetry_collector_init` does not look at `collector_running`.
In every state, Running ones included, it returns `DOCA_SUCCESS` exactly when
its five vendor calls and `pthread_create` all succeed; it then has created one
more telemetry context, stored in `telemetry_ctx`, and one more collector thread,
stored in `collector_thread`, and set `collector_running` to 1. When it returns
an error it has created no thread. -/
theorem telemetry_collector_init_ignores_running (device_id : Option String)
    (o : init_outcome) (s : state) :
    ((telemetry_collector_init device_id o s).1 = .DOCA_SUCCESS ↔
      (o.log_create = .DOCA_SUCCESS ∧ o.config_create = .DOCA_SUCCESS
        ∧ o.config_set_device_id = .DOCA_SUCCESS ∧ o.config_set_interval = .DOCA_SUCCESS
        ∧ o.telemetry_create = .DOCA_SUCCESS ∧ o.pthread_create = 0))
    ∧ ((telemetry_collector_init device_id o s).1 = .DOCA_SUCCESS →
        (telemetry_collector_init device_id o s).2.trace =
            s.trace ++ [.config_create, .telemetry_create s.next_ctx,
                        .thread_create s.next_thread, .config_destroy]
        ∧ (telemetry_collector_init device_id o s).2.telemetry_ctx = some s.next_ctx
        ∧ (telemetry_collector_init device_id o s).2.collector_thread = some s.next_thread
        ∧ (telemetry_collector_init device_id o s).2.collector_running = 1)
    ∧ ((telemetry_collector_init device_id o s).1 ≠ .DOCA_SUCCESS →
        ∀ tid : Nat,
          (telemetry_collector_init device_id o s).2.trace.count (.thread_create tid)
            = s.trace.count (.thread_create tid)) := by
  refine ⟨telemetry_collector_init_success_iff device_id o s, ?_, ?_⟩
  · intro h
    rw [telemetry_collector_init_success_state device_id o s
      ((telemetry_collector_init_success_iff device_id o s).1 h)]
    exact ⟨rfl, rfl, rfl, rfl⟩
  · intro h tid
    simp only [telemetry_collector_init] at h ⊢
    split_ifs at h ⊢ <;> simp_all [state.emit, List.count_append]

/-- C3 (amended) at a concrete input: the second, successful
`telemetry_collector_init` on the Running collector. -/
theorem telemetry_collector_init_ignores_running_witness :
    started_once.collector_running = 1
    ∧ (telemetry_collector_init DEVICE_ID all_succeed started_once).1 = .DOCA_SUCCESS
    ∧ (telemetry_collector_init DEVICE_ID all_succeed started_once).2.telemetry_ctx = some 1
    ∧ (telemetry_collector_init DEVICE_ID all_succeed started_once).2.collector_thread
        = some 1 := by
  have h := telemetry_collector_init_ignores_running DEVICE_ID all_succeed started_once
  have hs : (telemetry_collector_init DEVICE_ID all_succeed started_once).1 = .DOCA_SUCCESS :=
    h.1.2 ⟨rfl, rfl, rfl, rfl, rfl, rfl⟩
  have h2 := h.2.1 hs
  refine ⟨?_, hs, ?_, ?_⟩
  · simp [started_once, telemetry_collector_init, all_succeed, state.emit, initial_state]
  · rw [h2.2.1]
    simp [started_once, telemetry_collector_init, all_succeed, state.emit, initial_state]
  · rw [h2.2.2.1]
    simp [started_once, telemetry_collector_init, all_succeed, state.emit, initial_state]

/-- The function `telemetry_collector_init` never touches `current_metrics`. -/
theorem telemetry_collector_init_current_metrics (device_id : Option String)
    (o : init_outcome) (s : state) :
    (telemetry_collector_init device_id o s).2.current_metrics = s.current_metrics := by
  simp only [telemetry_collector_init]
  split_ifs <;> simp [state.emit]

/-- The function `telemetry_collector_cleanup` never touches `current_metrics`. -/
theorem telemetry_collector_cleanup_current_metrics (s : state) :
    (telemetry_collector_cleanup s).current_metrics = s.current_metrics := by
  simp only [telemetry_collector_cleanup]
  split_ifs <;> simp [state.emit]

/-- A call other than a delivering cycle leaves `current_metrics` alone. -/
theorem action_apply_current_metrics (a : action) (s : state)
    (h : a.stores_sample = false) : (a.apply s).current_metrics = s.current_metrics := by
  cases a with
  | init device_id o => exact telemetry_collector_init_current_metrics device_id o s
  | cleanup => exact telemetry_collector_cleanup_current_metrics s
  | cycle o =>
    have hd : o.delivered = none := by
      simpa [action.stores_sample] using h
    simp only [action.apply, collector_loop_step, collector_loop_body, hd]
    split_ifs <;> rfl

/-- A sequence of calls none of which is a delivering cycle leaves
`current_metrics` alone. -/
theorem run_current_metrics (acts : List action) :
    ∀ s : state, (∀ a ∈ acts, a.stores_sample = false) →
      (run acts s).current_metrics = s.current_metrics := by
  induction acts with
  | nil => intro s _; rfl
  | cons a as ih =>
    intro s h
    have h1 := action_apply_current_metrics a s (h a (List.mem_cons_self a as))
    have h2 := ih (a.apply s) (fun b hb => h b (List.mem_cons_of_mem a hb))
    simp only [run, List.foldl_cons] at h2 ⊢
    rw [h2, h1]

/-- C5 (as stated, refuted): in the initial state, and again after a successful
init followed by a collect that failed, `telemetry_get_current_metrics` with a
valid destination returns `DOCA_SUCCESS` and hands out the all-zero record; it
does not report "absent". -/
theorem get_before_first_sample_succeeds :
    telemetry_get_current_metrics (some zero_metrics) initial_state
      = (.DOCA_SUCCESS, some zero_metrics, initial_state)
    ∧ (telemetry_get_current_metrics (some zero_metrics)
        (run [.init DEVICE_ID all_succeed, .cycle failed_collect] initial_state)).1
        = .DOCA_SUCCESS
    ∧ (telemetry_get_current_metrics (some zero_metrics)
        (run [.init DEVICE_ID all_succeed, .cycle failed_collect] initial_state)).2.1
        = some zero_metrics := by
  refine ⟨rfl, rfl, ?_⟩
  simp [telemetry_get_current_metrics, run, action.apply, collector_loop_step,
    collector_loop_body, failed_collect, telemetry_collector_init, all_succeed, state.emit,
    initial_state]

/-- C5 (amended): there is no "absent" result. In every state reached from the
initial one by init, cleanup and collector cycles that delivered no data, so
before any cycle has completed successfully,
`telemetry_get_current_metrics` with a valid destination returns `DOCA_SUCCESS`
and a copy of the zero-initialised `current_metrics`; once a cycle of the running
collector has delivered data it returns `DOCA_SUCCESS` and that cycle's sample. -/
theorem get_current_metrics_before_and_after_first_sample :
    (∀ (acts : List action) (dst : network_metrics_t),
      (∀ a ∈ acts, a.stores_sample = false) →
        telemetry_get_current_metrics (some dst) (run acts initial_state)
          = (.DOCA_SUCCESS, some zero_metrics, run acts initial_state))
    ∧ (∀ (s : state) (data : doca_telemetry_data_t) (now : Int) (result : doca_error_t)
        (dst : network_metrics_t),
        s.collector_running ≠ 0 →
          telemetry_get_current_metrics (some dst)
              (collector_loop_step ⟨some (data, now), result⟩ s).2
            = (.DOCA_SUCCESS, some (sample_of data now),
                (collector_loop_step ⟨some (data, now), result⟩ s).2)) := by
  constructor
  · intro acts dst h
    have hm := run_current_metrics acts initial_state h
    simp only [telemetry_get_current_metrics, hm]
    rfl
  · intro s data now result dst hrun
    simp [telemetry_get_current_metrics, collector_loop_step, collector_loop_body, hrun,
      telemetry_callback_eq]

/-- C5 (amended) at a concrete input: a read after a successful init and one
failed collect. -/
theorem get_current_metrics_before_and_after_first_sample_witness :
    (∀ a ∈ [action.init DEVICE_ID all_succeed, action.cycle failed_collect],
      a.stores_sample = false)
    ∧ telemetry_get_current_metrics (some zero_metrics)
        (run [.init DEVICE_ID all_succeed, .cycle failed_collect] initial_state)
      = (.DOCA_SUCCESS, some zero_metrics,
          run [.init DEVICE_ID all_succeed, .cycle failed_collect] initial_state) :=
  ⟨by decide,
    get_current_metrics_before_and_after_first_sample.1
      [.init DEVICE_ID all_succeed, .cycle failed_collect] zero_metrics (by decide)⟩

/-- The initial state satisfies the lifecycle invariant. -/
theorem lifecycle_inv_initial : lifecycle_inv initial_state := by
  constructor <;> simp [initial_state]

/-- Creating or destroying the local config does not disturb the invariant. -/
theorem lifecycle_inv_emit_config (s : state) (e : event)
    (he : e = .config_create ∨ e = .config_destroy) (h : lifecycle_inv s) :
    lifecycle_inv (s.emit e) := by
  obtain ⟨h1, h2, h3, h4, h5, h6, h7, h8⟩ := h
  rcases he with rfl | rfl <;>
    constructor <;>
      simpa [state.emit, List.count_append, List.count_cons] using (by assumption)

/-- A `telemetry_collector_init` that fails before `pthread_create` changes
nothing but the trace, to which it adds at most the creation and destruction of
its config. -/
theorem telemetry_collector_init_early_failure (device_id : Option String)
    (o : init_outcome) (s : state)
    (hp : o.reaches_pthread_create = true → o.pthread_create = 0)
    (hf : (telemetry_collector_init device_id o s).1 ≠ .DOCA_SUCCESS) :
    (telemetry_collector_init device_id o s).2 = s
    ∨ (telemetry_collector_init device_id o s).2
        = (s.emit .config_create).emit .config_destroy := by
  simp only [telemetry_collector_init] at hf ⊢
  split_ifs at hf ⊢ <;> simp_all [init_outcome.reaches_pthread_create]

/-- A `telemetry_collector_init` called while Idle, whose `pthread_create` does
not fail, keeps the invariant. -/
theorem lifecycle_inv_init (device_id : Option String) (o : init_outcome) (s : state)
    (h : lifecycle_inv s) (hr : s.collector_running = 0) (hc : s.telemetry_ctx = none)
    (hp : o.reaches_pthread_create = true → o.pthread_create = 0) :
    lifecycle_inv (telemetry_collector_init device_id o s).2 := by
  by_cases hs : (telemetry_collector_init device_id o s).1 = .DOCA_SUCCESS
  · rw [telemetry_collector_init_success_state device_id o s
      ((telemetry_collector_init_success_iff device_id o s).1 hs)]
    obtain ⟨h1, h2, h3, h4, h5, h6, h7, h8⟩ := h
    have hd0 : ∀ c : Nat, s.next_ctx ≤ c → s.trace.count (.telemetry_destroy (some c)) = 0 := by
      intro c hle
      rw [List.count_eq_zero]
      intro hm
      exact absurd (h3 c hm) (by omega)
    have hj0 : ∀ tid : Nat, s.next_thread ≤ tid →
        s.trace.count (.thread_join (some tid)) = 0 := by
      intro tid hle
      rw [List.count_eq_zero]
      intro hm
      obtain ⟨t', ht', hm'⟩ := h4 _ hm
      have := h2 t' hm'
      simp only [Option.some.injEq] at ht'
      omega
    constructor
    · intro c hm
      simp only [List.mem_append, List.mem_cons, List.mem_singleton, List.not_mem_nil,
        reduceCtorEq, event.telemetry_create.injEq, false_or, or_false] at hm
      rcases hm with hm | rfl
      · have := h1 c hm
        simp only; omega
      · simp only; omega
    · intro tid hm
      simp only [List.mem_append, List.mem_cons, List.mem_singleton, List.not_mem_nil,
        reduceCtorEq, event.thread_create.injEq, false_or, or_false] at hm
      rcases hm with hm | rfl
      · have := h2 tid hm
        simp only; omega
      · simp only; omega
    · intro c hm
      simp only [List.mem_append, List.mem_cons, List.mem_singleton, List.not_mem_nil,
        reduceCtorEq, false_or, or_false] at hm
      have := h3 c hm
      simp only; omega
    · intro j hm
      simp only [List.mem_append, List.mem_cons, List.mem_singleton, List.not_mem_nil,
        reduceCtorEq, false_or, or_false] at hm
      obtain ⟨tid, rfl, hm'⟩ := h4 j hm
      exact ⟨tid, rfl, by simp [hm']⟩
    · intro c hm
      simp only [List.mem_append, List.mem_cons, List.mem_singleton, List.not_mem_nil,
        reduceCtorEq, event.telemetry_create.injEq, false_or, or_false] at hm
      rcases hm with hm | rfl
      · have hlt := h1 c hm
        have hcnt := h5 c hm
        rw [hc] at hcnt
        have hne : s.next_ctx ≠ c := by omega
        simp [List.count_append, List.count_cons, hcnt, hne]
      · simp [List.count_append, List.count_cons, hd0 s.next_ctx (le_refl _)]
    · intro tid hm
      simp only [List.mem_append, List.mem_cons, List.mem_singleton, List.not_mem_nil,
        reduceCtorEq, event.thread_create.injEq, false_or, or_false] at hm
      rcases hm with hm | rfl
      · have hlt := h2 tid hm
        have hcnt := h6 tid hm
        have hne : s.next_thread ≠ tid := by omega
        simp [hr] at hcnt
        simp [List.count_append, List.count_cons, hcnt, hne]
      · simp [List.count_append, List.count_cons, hj0 s.next_thread (le_refl _)]
    · intro _
      exact ⟨s.next_thread, rfl, by simp⟩
    · intro c hc'
      simp only [Option.some.injEq] at hc'
      subst hc'
      simp
  · rcases telemetry_collector_init_early_failure device_id o s hp hs with he | he
    · rw [he]; exact h
    · rw [he]
      exact lifecycle_inv_emit_config _ _ (Or.inr rfl)
        (lifecycle_inv_emit_config _ _ (Or.inl rfl) h)

/-- The first `if` of `telemetry_collector_cleanup` (lines 176-179) keeps the
invariant. -/
theorem lifecycle_inv_join (s : state) (h : lifecycle_inv s) (hr : s.collector_running ≠ 0) :
    lifecycle_inv ({ s with collector_running := 0 }.emit (.thread_join s.collector_thread)) := by
  obtain ⟨h1, h2, h3, h4, h5, h6, h7, h8⟩ := h
  obtain ⟨t0, ht0, hm0⟩ := h7 hr
  constructor
  · simpa [state.emit] using h1
  · simpa [state.emit] using h2
  · simpa [state.emit] using h3
  · intro j hm
    simp only [state.emit, List.mem_append, List.mem_singleton, event.thread_join.injEq] at hm
    rcases hm with hm | rfl
    · obtain ⟨tid, rfl, hm'⟩ := h4 j hm
      exact ⟨tid, rfl, by simp [state.emit, hm']⟩
    · exact ⟨t0, ht0, by simp [state.emit, hm0]⟩
  · intro c hm
    have hm' : event.telemetry_create c ∈ s.trace := by simpa [state.emit] using hm
    simpa [state.emit, List.count_append, List.count_cons] using h5 c hm'
  · intro tid hm
    have hm' : event.thread_create tid ∈ s.trace := by simpa [state.emit] using hm
    have hcnt := h6 tid hm'
    by_cases ht : t0 = tid
    · subst ht
      simp [hr, ht0] at hcnt
      simp [state.emit, List.count_append, List.count_cons, hcnt, ht0]
    · simp [hr, ht0, ht] at hcnt
      simp [state.emit, List.count_append, List.count_cons, hcnt, ht0, ht]
  · intro hne
    simp [state.emit] at hne
  · intro c hc'
    have hm := h8 c (by simpa [state.emit] using hc')
    simp [state.emit, hm]

/-- The second `if` of `telemetry_collector_cleanup` (lines 181-184) keeps the
invariant. -/
theorem lifecycle_inv_destroy (s : state) (h : lifecycle_inv s) (c0 : Nat)
    (hc : s.telemetry_ctx = some c0) :
    lifecycle_inv { s.emit (.telemetry_destroy s.telemetry_ctx) with telemetry_ctx := none } := by
  obtain ⟨h1, h2, h3, h4, h5, h6, h7, h8⟩ := h
  constructor
  · simpa [state.emit] using h1
  · simpa [state.emit] using h2
  · intro c hm
    simp only [state.emit, List.mem_append, List.mem_singleton, event.telemetry_destroy.injEq]
      at hm
    rcases hm with hm | hm
    · exact h3 c hm
    · rw [hc] at hm
      simp only [Option.some.injEq] at hm
      subst hm
      exact h1 c (h8 c hc)
  · intro j hm
    have hm' : event.thread_join j ∈ s.trace := by simpa [state.emit] using hm
    obtain ⟨tid, rfl, hm''⟩ := h4 j hm'
    exact ⟨tid, rfl, by simp [state.emit, hm'']⟩
  · intro c hm
    have hm' : event.telemetry_create c ∈ s.trace := by simpa [state.emit] using hm
    have hcnt := h5 c hm'
    by_cases ht : c0 = c
    · subst ht
      simp [hc] at hcnt
      simp [state.emit, List.count_append, List.count_cons, hcnt, hc]
    · simp [hc, ht] at hcnt
      simp [state.emit, List.count_append, List.count_cons, hcnt, hc, ht]
  · intro tid hm
    have hm' : event.thread_create tid ∈ s.trace := by simpa [state.emit] using hm
    simpa [state.emit, List.count_append, List.count_cons] using h6 tid hm'
  · intro hne
    obtain ⟨tid, ht, hm⟩ := h7 (by simpa [state.emit] using hne)
    exact ⟨tid, by simpa [state.emit] using ht, by simp [state.emit, hm]⟩
  · intro c hc'
    simp [state.emit] at hc'

/-- The function `telemetry_collector_cleanup` keeps the invariant. -/
theorem lifecycle_inv_cleanup (s : state) (h : lifecycle_inv s) :
    lifecycle_inv (telemetry_collector_cleanup s) := by
  have hstage : lifecycle_inv
      (if s.collector_running ≠ 0 then
        { s with collector_running := 0 }.emit (.thread_join s.collector_thread)
      else s) := by
    split_ifs with hr
    · exact lifecycle_inv_join s h hr
    · exact h
  simp only [telemetry_collector_cleanup]
  generalize (if s.collector_running ≠ 0 then
        { s with collector_running := 0 }.emit (.thread_join s.collector_thread)
      else s) = s1 at hstage ⊢
  cases hc : s1.telemetry_ctx with
  | none => simpa [hc] using hstage
  | some c0 =>
    have := lifecycle_inv_destroy s1 hstage c0 hc
    simpa [hc] using this

/-- After `telemetry_collector_cleanup` the collector is Idle. -/
theorem telemetry_collector_cleanup_idle (s : state) :
    (telemetry_collector_cleanup s).collector_running = 0
    ∧ (telemetry_collector_cleanup s).telemetry_ctx = none := by
  by_cases h1 : s.collector_running = 0 <;> by_cases h2 : s.telemetry_ctx = none <;>
    simp [telemetry_collector_cleanup, state.emit, h1, h2]

/-- A collector cycle keeps the invariant: it changes `current_metrics` only. -/
theorem lifecycle_inv_cycle (o : collect_outcome) (s : state) (h : lifecycle_inv s) :
    lifecycle_inv (collector_loop_step o s).2 := by
  obtain ⟨d, r⟩ := o
  by_cases hr : s.collector_running = 0
  · simpa [collector_loop_step, hr] using h
  · cases d with
    | none => simpa [collector_loop_step, collector_loop_body, hr] using h
    | some dn =>
      obtain ⟨h1, h2, h3, h4, h5, h6, h7, h8⟩ := h
      simp only [collector_loop_step, collector_loop_body, hr, ne_eq, not_false_eq_true,
        if_true, ite_self]
      exact ⟨h1, h2, h3, h4, h5, h6, h7, h8⟩

/-- A sequence of calls in which init is only called while Idle and
`pthread_create` never fails keeps the invariant. -/
theorem lifecycle_inv_run (acts : List action) :
    ∀ s : state, lifecycle_inv s → init_only_when_idle acts s = true →
      (∀ a ∈ acts, a.thread_creation_ok = true) → lifecycle_inv (run acts s) := by
  induction acts with
  | nil => intro s h _ _; exact h
  | cons a as ih =>
    intro s h hidle hthr
    simp only [init_only_when_idle, Bool.and_eq_true] at hidle
    have ha : lifecycle_inv (a.apply s) := by
      cases a with
      | init device_id o =>
        have hp := hthr _ (List.mem_cons_self _ _)
        simp only [action.thread_creation_ok, Bool.or_eq_true, Bool.not_eq_true',
          decide_eq_true_eq] at hp
        have hp : o.reaches_pthread_create = true → o.pthread_create = 0 := by
          intro hreach
          rcases hp with hp | hp
          · rw [hreach] at hp; exact absurd hp (by decide)
          · exact hp
        have h0 := hidle.1
        simp only [Bool.and_eq_true, decide_eq_true_eq] at h0
        exact lifecycle_inv_init device_id o s h h0.1 h0.2 hp
      | cleanup => exact lifecycle_inv_cleanup s h
      | cycle o => exact lifecycle_inv_cycle o s h
    have := ih (a.apply s) ha hidle.2 (fun b hb => hthr b (List.mem_cons_of_mem a hb))
    simpa [run] using this

/-- Running a sequence of calls followed by one more call. -/
theorem run_append_singleton (acts : List action) (a : action) (s : state) :
    run (acts ++ [a]) s = a.apply (run acts s) := by
  simp [run, List.foldl_append]

/-- C8 (as stated, refuted): two inits without a cleanup in between and a final
cleanup leave the first telemetry context never destroyed and the first thread
never joined; an init whose `pthread_create` fails, followed by cleanup, destroys
the one context twice and joins a thread that was never created. -/
theorem exactly_once_release_fails :
    (run [.init DEVICE_ID all_succeed, .init DEVICE_ID all_succeed, .cleanup]
        initial_state).trace
      = [.config_create, .telemetry_create 0, .thread_create 0, .config_destroy,
         .config_create, .telemetry_create 1, .thread_create 1, .config_destroy,
         .thread_join (some 1), .telemetry_destroy (some 1)]
    ∧ ¬ released_exactly_once
        (run [.init DEVICE_ID all_succeed, .init DEVICE_ID all_succeed, .cleanup]
          initial_state).trace
    ∧ (run [.init DEVICE_ID thread_creation_fails, .cleanup] initial_state).trace
      = [.config_create, .telemetry_create 0, .telemetry_destroy (some 0), .config_destroy,
         .thread_join none, .telemetry_destroy (some 0)]
    ∧ ¬ released_exactly_once
        (run [.init DEVICE_ID thread_creation_fails, .cleanup] initial_state).trace := by
  have e1 : (run [.init DEVICE_ID all_succeed, .init DEVICE_ID all_succeed, .cleanup]
        initial_state).trace
      = [.config_create, .telemetry_create 0, .thread_create 0, .config_destroy,
         .config_create, .telemetry_create 1, .thread_create 1, .config_destroy,
         .thread_join (some 1), .telemetry_destroy (some 1)] := by
    simp [run, action.apply, telemetry_collector_init, telemetry_collector_cleanup, all_succeed,
      state.emit, initial_state]
  have e2 : (run [.init DEVICE_ID thread_creation_fails, .cleanup] initial_state).trace
      = [.config_create, .telemetry_create 0, .telemetry_destroy (some 0), .config_destroy,
         .thread_join none, .telemetry_destroy (some 0)] := by
    simp [run, action.apply, telemetry_collector_init, telemetry_collector_cleanup,
      thread_creation_fails, all_succeed, state.emit, initial_state]
  refine ⟨e1, ?_, e2, ?_⟩
  · rw [e1]
    intro h
    have := h.1 0 (by simp)
    simp [List.count_cons] at this
  · rw [e2]
    intro h
    have := h.1 0 (by simp)
    simp [List.count_cons] at this

/-- C8 (amended): take any finite sequence of init, cleanup and collector-cycle
calls from program start in which every init is called while the collector is
Idle and no `pthread_create` fails, and follow it by a cleanup. Then every
telemetry context created by `doca_telemetry_create` has been passed to
`doca_telemetry_destroy` exactly once, every thread created has been joined
exactly once, and no join was made for a thread that was not created. -/
theorem released_exactly_once_after_cleanup (acts : List action)
    (hidle : init_only_when_idle acts initial_state = true)
    (hthr : ∀ a ∈ acts, a.thread_creation_ok = true) :
    released_exactly_once (run (acts ++ [.cleanup]) initial_state).trace := by
  have hinv := lifecycle_inv_cleanup _ (lifecycle_inv_run acts initial_state
    lifecycle_inv_initial hidle hthr)
  have hid := telemetry_collector_cleanup_idle (run acts initial_state)
  rw [run_append_singleton]
  simp only [action.apply]
  generalize telemetry_collector_cleanup (run acts initial_state) = s at hinv hid
  obtain ⟨h1, h2, h3, h4, h5, h6, h7, h8⟩ := hinv
  refine ⟨?_, ?_, h4⟩
  · intro c hm
    have := h5 c hm
    simpa [hid.2] using this
  · intro tid hm
    have := h6 tid hm
    simpa [hid.1] using this

/-- C8 (amended) at a concrete input: start, failed cycle, stop, a start that
fails at `doca_telemetry_config_set_interval`, a restart, and the final stop. -/
theorem released_exactly_once_after_cleanup_witness :
    init_only_when_idle restart_calls initial_state = true
    ∧ (∀ a ∈ restart_calls, a.thread_creation_ok = true)
    ∧ released_exactly_once (run (restart_calls ++ [.cleanup]) initial_state).trace :=
  ⟨by decide, by decide, released_exactly_once_after_cleanup restart_calls (by decide) (by decide)⟩

/-- C9 (as stated, refuted): a read scheduled right after the first assignment
of the first callback invocation returns the new timestamp together with the
initial values of the nine other fields; that sample is neither the initial
value nor the sample of the invocation. -/
theorem torn_read_exists :
    (interleave [.writer_stmt, .reader_get] (start_interleaving [(ones_data, 1)])).reads
      = [(1, { zero_metrics with timestamp := 1 })]
    ∧ sample_of ones_data 1 =
        { timestamp := 1, packets_per_sec := 1, bytes_per_sec := 1, active_connections := 1,
          dropped_packets := 1, encryption_hits := 1, decryption_hits := 1,
          cpu_usage := .fin 1, memory_usage := .fin 1, error_count := 1 }
    ∧ ¬ (∀ kr ∈ (interleave [.writer_stmt, .reader_get]
            (start_interleaving [(ones_data, 1)])).reads,
          consistent_read [(ones_data, 1)] kr.2) := by
  have e1 : (interleave [.writer_stmt, .reader_get]
      (start_interleaving [(ones_data, 1)])).reads
      = [(1, { zero_metrics with timestamp := 1 })] := by
    simp [interleave, interleave_step, start_interleaving, started_once,
      telemetry_collector_init, all_succeed, state.emit, initial_state,
      telemetry_get_current_metrics, callback_stmt, CALLBACK_STMTS, UINT64_MOD, zero_metrics]
  have e2 : sample_of ones_data 1 =
        { timestamp := 1, packets_per_sec := 1, bytes_per_sec := 1, active_connections := 1,
          dropped_packets := 1, encryption_hits := 1, decryption_hits := 1,
          cpu_usage := .fin 1, memory_usage := .fin 1, error_count := 1 } := by
    simp [sample_of, ones_data, UINT64_MOD]
  refine ⟨e1, e2, ?_⟩
  rw [e1]
  intro h
  have h1 := h (1, { zero_metrics with timestamp := 1 }) (by simp)
  rcases h1 with h1 | ⟨c, hc, h1⟩
  · simp [zero_metrics] at h1
  · simp only [List.mem_singleton] at hc
    subst hc
    rw [e2] at h1
    simp [zero_metrics] at h1

/-- The interleaving starts in a state satisfying the invariant. -/
theorem interleaving_inv_start (cycles : List (doca_telemetry_data_t × Int)) :
    interleaving_inv cycles (start_interleaving cycles) := by
  have hm : started_once.current_metrics = zero_metrics :=
    telemetry_collector_init_current_metrics DEVICE_ID all_succeed initial_state
  constructor
  · intro kr hkr
    simp [start_interleaving] at hkr
  · exact ⟨[], rfl⟩
  · simp [start_interleaving, CALLBACK_STMTS]
  · intro data now rest _
    exact ⟨started_once.current_metrics, rfl⟩
  · intro _
    exact Or.inl hm

/-- Every step of the interleaving keeps the invariant. -/
theorem interleaving_inv_step (cycles : List (doca_telemetry_data_t × Int))
    (x : sched_step) (c : interleaving) (h : interleaving_inv cycles c) :
    interleaving_inv cycles (interleave_step x c) := by
  obtain ⟨h1, h2, h3, h4, h5⟩ := h
  cases x with
  | reader_get =>
    simp only [interleave_step, telemetry_get_current_metrics]
    constructor
    · intro kr hkr hz
      simp only [List.mem_append, List.mem_singleton] at hkr
      rcases hkr with hkr | rfl
      · exact h1 kr hkr hz
      · exact h5 hz
    · exact h2
    · exact h3
    · exact h4
    · exact h5
  | writer_stmt =>
    cases hp : c.pending with
    | nil =>
      simp only [interleave_step, hp]
      exact ⟨h1, h2, h3, h4, h5⟩
    | cons dn rest =>
      obtain ⟨data, now⟩ := dn
      obtain ⟨prev, hprev⟩ := h4 data now rest hp
      obtain ⟨done, hdone⟩ := h2
      have hnext : callback_stmt data now c.pc c.s.current_metrics
          = (List.range (c.pc + 1)).foldl (fun m k => callback_stmt data now k m) prev := by
        rw [List.range_succ, List.foldl_append, ← hprev]
        rfl
      simp only [interleave_step, hp]
      split_ifs with hlt
      · constructor
        · exact h1
        · exact ⟨done, by simpa [hp] using hdone⟩
        · exact hlt
        · intro data' now' rest' heq
          simp only [hp, List.cons.injEq, Prod.mk.injEq] at heq
          obtain ⟨⟨rfl, rfl⟩, _⟩ := heq
          exact ⟨prev, hnext⟩
        · intro hz
          simp at hz
      · have hpc : c.pc + 1 = CALLBACK_STMTS := by omega
        have hfull : callback_stmt data now c.pc c.s.current_metrics = sample_of data now := by
          rw [hnext, hpc]
          exact telemetry_callback_eq data now prev
        constructor
        · exact h1
        · exact ⟨done ++ [(data, now)], by simp [hdone, hp]⟩
        · simp [CALLBACK_STMTS]
        · intro data' now' rest' _
          exact ⟨_, rfl⟩
        · intro _
          refine Or.inr ⟨(data, now), ?_, hfull⟩
          rw [hdone, hp]
          simp

/-- Every schedule keeps the invariant. -/
theorem interleaving_inv_interleave (cycles : List (doca_telemetry_data_t × Int))
    (sched : List sched_step) :
    ∀ c : interleaving, interleaving_inv cycles c →
      interleaving_inv cycles (interleave sched c) := by
  induction sched with
  | nil => intro c h; exact h
  | cons x xs ih =>
    intro c h
    have := ih _ (interleaving_inv_step cycles x c h)
    simpa [interleave] using this

/-- C9 (amended): in every interleaving of reader calls with the assignment
statements of the collector thread's callback invocations, a
`telemetry_get_current_metrics` call made while no callback invocation is in
progress returns a sample whose ten fields are all from the initial value or
all from one and the same callback invocation. -/
theorem read_between_cycles_consistent (cycles : List (doca_telemetry_data_t × Int))
    (sched : List sched_step) (kr : Nat × network_metrics_t)
    (hmem : kr ∈ (interleave sched (start_interleaving cycles)).reads) (hpc : kr.1 = 0) :
    consistent_read cycles kr.2 :=
  (interleaving_inv_interleave cycles sched _ (interleaving_inv_start cycles)).reads_ok
    kr hmem hpc

/-- C9 (amended) at a concrete input: a read made after the ten assignments of
one callback invocation returns that invocation's sample. -/
theorem read_between_cycles_consistent_witness :
    (0, sample_of ones_data 1)
      ∈ (interleave read_after_cycle (start_interleaving [(ones_data, 1)])).reads
    ∧ ((0, sample_of ones_data 1) : Nat × network_metrics_t).1 = 0
    ∧ consistent_read [(ones_data, 1)] (sample_of ones_data 1) :=
  have hmem : (0, sample_of ones_data 1)
      ∈ (interleave read_after_cycle (start_interleaving [(ones_data, 1)])).reads := by
    simp [read_after_cycle, List.replicate, interleave, interleave_step, start_interleaving,
      started_once, telemetry_collector_init, all_succeed, state.emit, initial_state,
      telemetry_get_current_metrics, callback_stmt, CALLBACK_STMTS, UINT64_MOD, zero_metrics,
      sample_of, ones_data]
  ⟨hmem, rfl,
    read_between_cycles_consistent [(ones_data, 1)] read_after_cycle
      (0, sample_of ones_data 1) hmem rfl⟩

end Telemetry
